import Mathlib

/-!
# Verification of the MLE API schema-driven entity engine

Shallow embedding of the core of the `mle-api` repository:

* `src/lib/data.utils.js` — value sanitization by semantic (PostgreSQL) type
  (`sanitize`, `humanize`, `toSnake`);
* `src/services/construct.services.js` — the entity factory (`setData`,
  `getValue`, `setValue`, `getData`, `addAttribute`, `clear`), including the
  by-reference sharing of `schema.attributes` between the constructor's schema
  object and every instance it builds;
* `src/controllers/model.controller.js` (`ModelController`) — the `show`,
  `edit`, `move` and `remove` request handlers, embedded as functions from an
  environment (the results of the awaited service calls) to an outcome
  together with the ordered trace of connection, read and mutation effects
  they issue.

JavaScript numbers are modelled by integers: every datum exercised by the
verified properties is integral or textual, and the float sanitizer is
modelled as parse-or-NaN with the parsed value truncated to its integer
part.  JavaScript faults reachable in the embedded code are modelled
explicitly: the `text`/`varying character` sanitizers throw a TypeError on
`undefined` (the strict-equality guard catches only `null` and `''` before
`data.toString()` runs), `setData` propagates that throw out of its
assignment pass leaving the attributes object partially updated, and
`getData` after `clear()` faults on the first surviving array index.
-/

/-- A JavaScript value as it flows through the entity engine.  Arrays are
flat lists of scalar atoms, which is the shape the engine's composite
(`USER-DEFINED`) columns use (e.g. coordinates, camera settings tuples). -/
inductive JSAtom where
  | null
  | undef
  | bool (b : Bool)
  | num (n : Int)
  | str (s : String)
deriving DecidableEq, Repr

inductive JSValue where
  | atom (a : JSAtom)
  | arr (xs : List JSAtom)
deriving DecidableEq, Repr

namespace JSValue

def null : JSValue := .atom .null
def undef : JSValue := .atom .undef
def bool (b : Bool) : JSValue := .atom (.bool b)
def num (n : Int) : JSValue := .atom (.num n)
def str (s : String) : JSValue := .atom (.str s)

/-- JavaScript truthiness (`!!data`). -/
def toBool : JSValue → Bool
  | .atom .null => false
  | .atom .undef => false
  | .atom (.bool b) => b
  | .atom (.num n) => n != 0
  | .atom (.str s) => s != ""
  | .arr _ => true

/-- Embeds `Array.isArray(data)`. -/
def isArray : JSValue → Bool
  | .arr _ => true
  | _ => false

end JSValue

/-- String coercion of a scalar (JavaScript `String(x)` / `x.toString()`). -/
def atomToString : JSAtom → String
  | .null => "null"
  | .undef => "undefined"
  | .bool true => "true"
  | .bool false => "false"
  | .num n => toString n
  | .str s => s

/-- Element rendering inside `Array.prototype.join`, where `null` and
`undefined` render as the empty string. -/
def joinElemString : JSAtom → String
  | .null => ""
  | .undef => ""
  | a => atomToString a

/-- String coercion of a value; arrays join their elements with `,`. -/
def jsToString : JSValue → String
  | .atom a => atomToString a
  | .arr xs => String.intercalate "," (xs.map joinElemString)

/-- Scan for the first `>` in the remainder of a `<...>` tag
(the regex fragment `[^>]*>` after the guaranteed first non-`>` char). -/
def stripClose : List Char → Option (List Char)
  | [] => none
  | '>' :: rest => some rest
  | _ :: rest => stripClose rest

/-- One fuelled pass of `String.replace(/(<([^>]+)>)/ig, '')`: every
occurrence of `<`, one or more non-`>` characters, `>` is removed.  Each
step consumes at least one input character, so the input length bounds the
number of steps. -/
def stripTagsGo : Nat → List Char → List Char
  | 0, cs => cs
  | _ + 1, [] => []
  | fuel + 1, '<' :: rest =>
    match rest with
    | [] => ['<']
    | '>' :: _ => '<' :: stripTagsGo fuel rest
    | _ :: _ =>
      match stripClose rest with
      | some rest' => stripTagsGo fuel rest'
      | none => '<' :: stripTagsGo fuel rest
  | fuel + 1, c :: rest => c :: stripTagsGo fuel rest

/-- HTML-tag stripping used by the `text` and `varying character`
sanitizers. -/
def stripTags (s : String) : String :=
  ⟨stripTagsGo s.data.length s.data⟩

/-- Digits-prefix accumulator for the JS numeric parsers. -/
def digitsToNat (cs : List Char) : Option Nat :=
  let ds := cs.takeWhile Char.isDigit
  if ds.isEmpty then none
  else some (ds.foldl (fun a c => a * 10 + (c.toNat - 48)) 0)

/-- Hexadecimal digit test for `parseInt`'s automatic radix detection. -/
def isHexDigitJS (c : Char) : Bool :=
  c.isDigit || ('a' ≤ c.toLower && c.toLower ≤ 'f')

/-- Value of a hexadecimal digit (only applied under `isHexDigitJS`). -/
def hexVal (c : Char) : Nat :=
  if c.isDigit then c.toNat - 48 else c.toLower.toNat - 87

/-- Hex-digits-prefix accumulator after a `0x`/`0X` marker; `none` (NaN)
when no hex digit follows the marker. -/
def hexToNat (cs : List Char) : Option Nat :=
  let ds := cs.takeWhile isHexDigitJS
  if ds.isEmpty then none
  else some (ds.foldl (fun a c => a * 16 + hexVal c) 0)

/-- Unsigned part of `parseInt`: automatic hex detection on a `0x`/`0X`
prefix, else a non-empty decimal digit prefix. -/
def parseIntBody (cs : List Char) : Option Nat :=
  match cs with
  | '0' :: x :: rest =>
    if x = 'x' ∨ x = 'X' then hexToNat rest else digitsToNat cs
  | _ => digitsToNat cs

/-- JavaScript `parseInt(data)`: coerce to string, skip leading whitespace,
optional sign, then automatic hex detection or a non-empty decimal digit
prefix; `none` is `NaN`. -/
def parseIntJS (data : JSValue) : Option Int :=
  match (jsToString data).data.dropWhile Char.isWhitespace with
  | '-' :: rest => (parseIntBody rest).map (fun n => -(n : Int))
  | '+' :: rest => (parseIntBody rest).map (fun n => (n : Int))
  | rest => (parseIntBody rest).map (fun n => (n : Int))

/-- JavaScript `parseFloat(data)`: optional sign, integer digits, optional
fractional digits after `.`, optional exponent part (`e`/`E`, optional
sign, digits; ignored when malformed, as JS stops consuming there).  The
value is truncated toward zero to its integer part, since numbers are
modelled by integers; `none` is `NaN`, produced exactly when the mantissa
has no digit. -/
def parseFloatJS (data : JSValue) : Option Int :=
  let cs := (jsToString data).data.dropWhile Char.isWhitespace
  let signed : Bool × List Char :=
    match cs with
    | '-' :: rest => (true, rest)
    | '+' :: rest => (false, rest)
    | _ => (false, cs)
  let ip := signed.2.takeWhile Char.isDigit
  let afterInt := signed.2.dropWhile Char.isDigit
  let fp : List Char :=
    match afterInt with
    | '.' :: r => r.takeWhile Char.isDigit
    | _ => []
  let afterFrac : List Char :=
    match afterInt with
    | '.' :: r => r.dropWhile Char.isDigit
    | _ => afterInt
  if ip.isEmpty && fp.isEmpty then none
  else
    let mantissa : Nat := (ip ++ fp).foldl (fun a c => a * 10 + (c.toNat - 48)) 0
    let expVal : Int :=
      match afterFrac with
      | e :: r =>
        if e = 'e' ∨ e = 'E' then
          match r with
          | '-' :: r2 =>
            match digitsToNat r2 with
            | some n => -(n : Int)
            | none => 0
          | '+' :: r2 =>
            match digitsToNat r2 with
            | some n => (n : Int)
            | none => 0
          | r2 =>
            match digitsToNat r2 with
            | some n => (n : Int)
            | none => 0
        else 0
      | [] => 0
    let shift : Int := expVal - (fp.length : Int)
    let mag : Nat :=
      if 0 ≤ shift then mantissa * 10 ^ shift.toNat
      else mantissa / 10 ^ (-shift).toNat
    some (if signed.1 then -(mag : Int) else (mag : Int))

/-- Minimal JSON rendering of a scalar for `JSON.stringify`. -/
def jsonAtom : JSAtom → String
  | .null => "null"
  | .undef => "null"
  | .bool true => "true"
  | .bool false => "false"
  | .num n => toString n
  | .str s => "\"" ++ s ++ "\""

/-- Embeds `JSON.stringify(data)`; stringifying `undefined` yields `undefined`. -/
def jsonStringify : JSValue → JSValue
  | .atom .undef => JSValue.undef
  | .atom a => JSValue.str (jsonAtom a)
  | .arr xs => JSValue.str ("[" ++ String.intercalate "," (xs.map jsonAtom) ++ "]")

/-- Error message of the fault raised by `undefined.toString()`. -/
def undefToStringError : String :=
  "TypeError: cannot read properties of undefined (reading toString)"

/-- Embeds `sanitize(data, datatype)` from `src/lib/data.utils.js`: sanitize
data by PostgreSQL data type.  Composite user-defined types are serialized
as a parenthesized comma tuple; the default rule converts empty strings to
null; the `text` and `varying character` rules map null and the empty
string to the empty string and otherwise call `data.toString()` and strip
HTML tags — so they throw a TypeError when `data` is `undefined`, which the
strict-equality guard does not catch.  No other branch can fault
(`parseInt`/`parseFloat` coerce without throwing, `JSON.stringify` and the
array join are total on these values). -/
def sanitize (data : JSValue) (datatype : String) : Except String JSValue :=
  if datatype = "boolean" then
    .ok (JSValue.bool data.toBool)
  else if datatype = "varying character" then
    if data = JSValue.null ∨ data = JSValue.str "" then .ok (JSValue.str "")
    else if data = JSValue.undef then .error undefToStringError
    else .ok (JSValue.str (stripTags (jsToString data)))
  else if datatype = "integer" then
    match parseIntJS data with
    | none => .ok JSValue.null
    | some n => .ok (JSValue.num n)
  else if datatype = "double precision" then
    match parseFloatJS data with
    | none => .ok JSValue.null
    | some n => .ok (JSValue.num n)
  else if datatype = "float" then
    match parseFloatJS data with
    | none => .ok JSValue.null
    | some n => .ok (JSValue.num n)
  else if datatype = "json" then
    .ok (jsonStringify data)
  else if datatype = "USER-DEFINED" then
    match data with
    | .arr xs =>
      .ok (JSValue.str ("(" ++ String.intercalate "," (xs.map joinElemString) ++ ")"))
    | _ => .ok JSValue.null
  else if datatype = "text" then
    if data = JSValue.null ∨ data = JSValue.str "" then .ok (JSValue.str "")
    else if data = JSValue.undef then .error undefToStringError
    else .ok (JSValue.str (stripTags (jsToString data)))
  else -- 'default' sanitizer: empty string normalized to null
    if data = JSValue.str "" then .ok JSValue.null else .ok data

/-- Embeds `toSnake(str)` from `src/lib/data.utils.js`: prefix every uppercase
letter with an underscore and lowercase it. -/
def toSnake (s : String) : String :=
  ⟨s.data.foldr (fun c acc => if c.isUpper then '_' :: c.toLower :: acc else c :: acc) []⟩

/-- Embeds `str.split(sep)` at character level (JavaScript split keeps empty
fragments around consecutive separators). -/
def splitOnChar (sep : Char) : List Char → List (List Char)
  | [] => [[]]
  | c :: rest =>
    match splitOnChar sep rest with
    | [] => [[c]]
    | g :: gs => if c = sep then [] :: g :: gs else (c :: g) :: gs

/-- Embeds `frag.charAt(0).toUpperCase() + frag.slice(1)`. -/
def capitalizeFrag : List Char → List Char
  | [] => []
  | c :: cs => c.toUpper :: cs

/-- Embeds `humanize(str)` from `src/lib/data.utils.js`: snake case the string,
split on underscores, capitalize each fragment and join with spaces. -/
def humanize (s : String) : String :=
  ⟨(((splitOnChar '_' (toSnake s).data).map capitalizeFrag).intersperse [' ']).flatten⟩

example : sanitize (JSValue.str "") "text" = Except.ok (JSValue.str "") := by rfl
example : sanitize (JSValue.str "") "serial" = Except.ok JSValue.null := by rfl
example : sanitize (JSValue.str "<b>hi</b>") "text" = Except.ok (JSValue.str "hi") := by rfl
example : sanitize JSValue.undef "text" = Except.error undefToStringError := by rfl
example : sanitize (JSValue.str " 42x") "integer" = Except.ok (JSValue.num 42) := by rfl
example : sanitize (JSValue.str "0x10") "integer" = Except.ok (JSValue.num 16) := by rfl
example : sanitize (JSValue.str "1e3") "float" = Except.ok (JSValue.num 1000) := by rfl
example : sanitize (JSValue.str "-12.5") "float" = Except.ok (JSValue.num (-12)) := by rfl
example : humanize "modern_captures" = "Modern Captures" := by decide

/-! ## Entity factory: `src/services/construct.services.js` -/

/-- One attribute cell of `this.attributes`: `{value, key, label, type}`
(the `key` field duplicates the map key and is represented by it). -/
structure Attr where
  value : JSValue
  label : String
  type : String
deriving DecidableEq, Repr

/-- The `attributes` object: an ordered association of attribute names to
attribute cells (JavaScript object property order). -/
abbrev AttrMap := List (String × Attr)

/-- Embeds `obj.hasOwnProperty(key)`. -/
def hasOwnProperty (m : AttrMap) (k : String) : Bool :=
  m.any (fun kv => kv.1 == k)

/-- Embeds `this.attributes[key].value = v`. -/
def updateValue (m : AttrMap) (k : String) (v : JSValue) : AttrMap :=
  m.map fun kv => if kv.1 = k then (kv.1, { kv.2 with value := v }) else kv

/-- Embeds `this.attributes[key].type` (only read under a `hasOwnProperty`
guard). -/
def attrType (m : AttrMap) (k : String) : String :=
  match m.find? (fun kv => kv.1 == k) with
  | some kv => kv.2.type
  | none => ""

/-- Embeds `this.attributes[key].value` (only read under a `hasOwnProperty`
guard). -/
def attrValue (m : AttrMap) (k : String) : JSValue :=
  match m.find? (fun kv => kv.1 == k) with
  | some kv => kv.2.value
  | none => JSValue.null

/-- The `data` argument of `setData`: null / not an object, a flat record,
or a result-set-shaped wrapper `{rows: [...]}` whose first row is taken
(the verified claims never pass an empty `rows` array, on which the
JavaScript would fault before reaching the attribute loop). -/
inductive InputData where
  | nullData
  | flat (fields : List (String × JSValue))
  | rowSet (rows : List (List (String × JSValue)))
deriving DecidableEq, Repr

/-- The assignment pass of `setData`: store every input key present in the
schema after sanitizing its value by the attribute's semantic type.  When a
sanitizer throws, the exception propagates immediately: the returned map is
the attributes object as mutated so far (earlier keys already stored) and
the thrown message is reported alongside it. -/
def setDataAssign : AttrMap → List (String × JSValue) → AttrMap × Option String
  | attrs, [] => (attrs, none)
  | attrs, kv :: rest =>
    if hasOwnProperty attrs kv.1 then
      match sanitize kv.2 (attrType attrs kv.1) with
      | .ok v => setDataAssign (updateValue attrs kv.1 v) rest
      | .error e => (attrs, some e)
    else setDataAssign attrs rest

/-- Outcome of one `setData` call: the attributes object afterwards, the
warned-about unknown keys (`console.warn`, which all happen in the first
pass, before any assignment), and the thrown error, if the assignment pass
faulted partway. -/
structure SetDataResult where
  attrs : AttrMap
  warnings : List String
  thrown : Option String
deriving DecidableEq, Repr

/-- The two passes of `setData` over a record: collect a warning for every
input key absent from the model schema, then run the assignment pass. -/
def setDataFields (attrs : AttrMap) (fields : List (String × JSValue)) :
    SetDataResult :=
  let warnings := (fields.filter (fun kv => !(hasOwnProperty attrs kv.1))).map Prod.fst
  let assigned := setDataAssign attrs fields
  ⟨assigned.1, warnings, assigned.2⟩

/-- Embeds `setData(data)` from `construct.services.js`. -/
def setData (attrs : AttrMap) (data : InputData) : SetDataResult :=
  match data with
  | .nullData => ⟨attrs, [], none⟩
  | .flat fields => setDataFields attrs fields
  | .rowSet rows => setDataFields attrs (rows.headD [])

/-- Embeds `getValue(field)`: the attribute's value when `field` is truthy and an
own property of `this.attributes`, else null. -/
def getValue (attrs : AttrMap) (field : JSValue) : JSValue :=
  if field.toBool && hasOwnProperty attrs (jsToString field) then
    attrValue attrs (jsToString field)
  else JSValue.null

/-- Embeds `setValue(key, value)`: only a string key naming an existing
attribute is stored, re-sanitized by the attribute's semantic type; any
other call is ignored.  A sanitizer fault propagates to the caller. -/
def setValue (attrs : AttrMap) (key value : JSValue) : Except String AttrMap :=
  match key with
  | .atom (.str k) =>
    if hasOwnProperty attrs k then
      match sanitize value (attrType attrs k) with
      | .ok v => .ok (updateValue attrs k v)
      | .error e => .error e
    else .ok attrs
  | _ => .ok attrs

/-- Embeds `addAttribute(name, type, value)`: `this.attributes[name] = {value,
key: name, label: humanize(name), type}` — overwrites an existing property
in place or appends a new one. -/
def addAttributeMap (m : AttrMap) (name ty : String) (v : JSValue) : AttrMap :=
  if hasOwnProperty m name then
    m.map fun kv => if kv.1 = name then (kv.1, ⟨v, humanize name, ty⟩) else kv
  else m ++ [(name, ⟨v, humanize name, ty⟩)]

/-- The runtime state of `this.attributes`: the attributes object, or —
after `clear()` — the array that `Object.keys(this.attributes).map(cb)`
leaves behind, whose entries are all `undefined` because `cb` returns
nothing. -/
inductive AttrStore where
  | map (m : AttrMap)
  | cleared (n : Nat)
deriving DecidableEq, Repr

/-- Embeds `getData(filter)`: serialize `this.attributes` to a flat record,
omitting the filtered keys.  On the post-`clear` array the keys are the
array indices, and the reduce faults with a TypeError at the first
surviving index because `this.attributes[key]` is `undefined`. -/
def getData (store : AttrStore) (filter : List String) :
    Except String (List (String × JSValue)) :=
  match store with
  | .map m =>
    .ok ((m.filter (fun kv => !(filter.contains kv.1))).map
      (fun kv => (kv.1, kv.2.value)))
  | .cleared n =>
    let keys := ((List.range n).map (fun i => toString i)).filter
      (fun k => !(filter.contains k))
    if keys.isEmpty then .ok []
    else .error "TypeError: cannot read properties of undefined"

/-- The first pass of `clear()`: the map callback sets every attribute
cell's value to null (a side effect on the attributes object itself). -/
def clearValues (m : AttrMap) : AttrMap :=
  m.map fun kv => (kv.1, { kv.2 with value := JSValue.null })

/-- Embeds `clear()`: after the value-nulling pass, `this.attributes` is rebound
to the `.map` result — an array of `undefined` entries, one per key.  On an
already cleared non-empty instance the callback itself faults at the first
index. -/
def clearStore : AttrStore → Except String AttrStore
  | .map m => .ok (.cleared (clearValues m).length)
  | .cleared 0 => .ok (.cleared 0)
  | .cleared (_ + 1) => .error "TypeError: cannot read properties of undefined"

/-! ### Object identity: `this.attributes = schema.attributes`

`create(modelType)` builds one `Schema` object, and the constructor it
returns assigns `schema.attributes` to every instance by reference, so all
instances of one model type and the schema object itself share a single
attributes object (until `clear()` rebinds an instance's field).  The heap
makes that aliasing explicit. -/

structure ObjHeap where
  cells : Nat → AttrStore
  nextRef : Nat

def ObjHeap.empty : ObjHeap := ⟨fun _ => AttrStore.map [], 0⟩

def ObjHeap.get (h : ObjHeap) (r : Nat) : AttrStore := h.cells r

def ObjHeap.set (h : ObjHeap) (r : Nat) (v : AttrStore) : ObjHeap :=
  ⟨fun i => if i = r then v else h.cells i, h.nextRef⟩

def ObjHeap.alloc (h : ObjHeap) (v : AttrStore) : ObjHeap × Nat :=
  (⟨fun i => if i = h.nextRef then v else h.cells i, h.nextRef + 1⟩, h.nextRef)

/-- An entity instance: its model-type name and the reference to its
`attributes` object. -/
structure ModelInstance where
  name : String
  attrsRef : Nat
deriving DecidableEq, Repr

/-- Embeds `setData` lifted to the store (on a cleared instance the attribute
names are not own properties of the array, so every key is warned about and
nothing is stored; attribute names are never array indices). -/
def setDataStore (store : AttrStore) (data : InputData) :
    AttrStore × List String × Option String :=
  match store with
  | .map m => let r := setData m data; (.map r.attrs, r.warnings, r.thrown)
  | .cleared n =>
    match data with
    | .nullData => (.cleared n, [], none)
    | .flat fields => (.cleared n, fields.map Prod.fst, none)
    | .rowSet rows => (.cleared n, (rows.headD []).map Prod.fst, none)

/-- The generated constructor body: `this.attributes = schema.attributes`
(reference assignment) followed by `this.setData(attributeValues)`, which
mutates the shared attributes object in place; a sanitizer fault leaves the
shared object partially updated and propagates out of the constructor. -/
def newModel (h : ObjHeap) (name : String) (schemaRef : Nat) (data : InputData) :
    ObjHeap × ModelInstance × List String × Option String :=
  let r := setDataStore (h.get schemaRef) data
  (h.set schemaRef r.1, ⟨name, schemaRef⟩, r.2.1, r.2.2)

/-- Embeds `addAttribute` invoked on an instance: writes into the attributes
object the instance references. -/
def instAddAttribute (h : ObjHeap) (inst : ModelInstance) (name ty : String)
    (v : JSValue) : ObjHeap :=
  match h.get inst.attrsRef with
  | .map m => h.set inst.attrsRef (.map (addAttributeMap m name ty v))
  | .cleared n => h.set inst.attrsRef (.cleared n)

/-- Embeds `getData` invoked on an instance. -/
def instGetData (h : ObjHeap) (inst : ModelInstance) (filter : List String) :
    Except String (List (String × JSValue)) :=
  getData (h.get inst.attrsRef) filter

/-- A Schema Registry attribute entry (name, semantic type, label). -/
structure SchemaAttr where
  name : String
  type : String
  label : String
deriving DecidableEq, Repr

/-- Modelled from the spec: `schema.services.create` (the Schema
constructor) is not under `src/`.  Per §3 of the specification, every
attribute present in the schema exists in the fresh `schema.attributes`
object with default value null, in schema order. -/
def initAttrs (schema : List SchemaAttr) : AttrMap :=
  schema.map fun a => (a.name, ⟨JSValue.null, a.label, a.type⟩)

example :
    (setData (initAttrs [⟨"id", "integer", "Id"⟩])
      (InputData.flat [("id", JSValue.str "7"), ("bogus", JSValue.str "x")])) =
    ⟨[("id", ⟨JSValue.num 7, "Id", "integer"⟩)], ["bogus"], none⟩ := by decide

example :
    (setData (initAttrs [⟨"caption", "text", "Caption"⟩])
      (InputData.flat [("caption", JSValue.undef)])).thrown =
    some undefToStringError := by decide

example :
    getValue (initAttrs [⟨"id", "integer", "Id"⟩]) (JSValue.str "nope") =
      JSValue.null := by decide

/-! ## Model controller: `src/controllers/model.controller.js`

Each handler is embedded as a function from an environment — the results the
awaited service calls would return — to the outcome delivered to the
client together with the ordered trace of connection, transaction, read and
mutation effects the handler issues on its pooled database client. -/

namespace ModelController

/-- An effect issued by a handler, in program order. -/
inductive Effect where
  | connect            -- pool.connect()
  | beginTx            -- client.query('BEGIN')
  | commitTx           -- client.query('COMMIT')
  | rollbackTx         -- client.query('ROLLBACK')
  | release            -- client.release(true), in the finally block
  | readNode           -- nserve.get(id, nodeType, client)
  | readSelect         -- nserve.select(..., client)
  | readPath           -- nserve.getPath(...)
  | readDependentsExpand -- second-level dependents + attached (depth > 1)
  | readAttached       -- metaserve.getAttachedByNode(...)
  | readComparisons    -- getComparisonsMetadata(node, client)
  | readIsRelatable    -- isRelatable(id, owner_id, client)
  | deleteComparisonsFx -- deleteComparisons(node, client)
  | mserveMove         -- mserve.move(item, ownerData, client)
  | mserveRemove       -- mserve.remove(item, client)
deriving DecidableEq, Repr

/-- Does the effect mutate the relational store? -/
def mutates : Effect → Bool
  | .deleteComparisonsFx => true
  | .mserveMove => true
  | .mserveRemove => true
  | _ => false

/-- Is the effect a transaction-control statement? -/
def txEffect : Effect → Bool
  | .beginTx => true
  | .commitTx => true
  | .rollbackTx => true
  | _ => false

/-- The slice of an `nserve.get` result the handlers consult: the stored
node's entity type, its status, its dependents flag and its label (the
`node` and `metadata` sub-objects are carried opaquely into the model
instance and the response). -/
structure ItemData where
  type : String
  status : String
  hasDependents : Bool
  label : String
deriving DecidableEq, Repr

/-- What a handler delivers: a 200 response (carrying the item data it
echoes, when any) or `next(new Error(kind))`. -/
inductive Outcome where
  | ok (data : Option ItemData)
  | err (kind : String)
deriving DecidableEq, Repr

/-- The environment of one request: the controller's bound node type, the
request's ids resolved through the services, and the results the awaited
service calls return.  `nserve.get`, `nserve.select`, `isRelatable`,
`getComparisonsMetadata` and the `ModelServices` methods live outside
`src/`; their results are therefore environment parameters, with
`itemData.type` standing for the stored node row's `type` as the spec
describes `get`'s result. -/
structure Env where
  nodeType : String
  itemData : Option ItemData      -- nserve.get(id, nodeType, client)
  ownerData : Option Unit         -- nserve.select(owner_id, client); only presence is consulted
  comparisons : List Nat          -- getComparisonsMetadata(node, client), ids of comparison rows
  isRelatable : Bool              -- isRelatable(id, owner_id, client)
  moveResult : Bool               -- truthiness of mserve.move's result
  depth : Int                     -- model.depth
deriving DecidableEq, Repr

/-- Embeds `this.show` (named `showRec` because `show` is reserved in Lean):
resolve the node, fail `notFound` when absent or when the stored type
differs from the controller's node type, else read the path, expand
second-level dependents when `model.depth > 1`, attach metadata and
respond. -/
def showRec (env : Env) : Outcome × List Effect :=
  match env.itemData with
  | some d =>
    if env.nodeType = d.type then
      if 1 < env.depth then
        (.ok (some d),
         [.connect, .readNode, .readPath, .readDependentsExpand, .readAttached, .release])
      else
        (.ok (some d), [.connect, .readNode, .readPath, .readAttached, .release])
    else (.err "notFound", [.connect, .readNode, .release])
  | none => (.err "notFound", [.connect, .readNode, .release])

/-- Embeds `this.edit` (named `editRec`): resolve the node, fail `notFound` on
absence or type mismatch, else read the owner row and the path and respond
with the form data. -/
def editRec (env : Env) : Outcome × List Effect :=
  match env.itemData with
  | some d =>
    if env.nodeType = d.type then
      (.ok (some d), [.connect, .readNode, .readSelect, .readPath, .release])
    else (.err "notFound", [.connect, .readNode, .release])
  | none => (.err "notFound", [.connect, .readNode, .release])

/-- Embeds `this.move`: read the node and the candidate owner; `notFound` when
either is missing or the stored type mismatches; then read the comparison
set and the relatability verdict; reject `restrictedByComparisons` when the
comparison set is non-empty, `invalidMove` when the nodes are not relatable
or the status is outside `{unsorted, sorted, missing}`; otherwise call
`mserve.move` and reject `invalidRequest` when it returns a falsy
result. -/
def move (env : Env) : Outcome × List Effect :=
  match env.itemData, env.ownerData with
  | some d, some _ =>
    if env.nodeType = d.type then
      if env.comparisons ≠ [] then
        (.err "restrictedByComparisons",
         [.connect, .readNode, .readSelect, .readComparisons, .readIsRelatable, .release])
      else if ¬ env.isRelatable then
        (.err "invalidMove",
         [.connect, .readNode, .readSelect, .readComparisons, .readIsRelatable, .release])
      else if d.status ≠ "unsorted" ∧ d.status ≠ "sorted" ∧ d.status ≠ "missing" then
        (.err "invalidMove",
         [.connect, .readNode, .readSelect, .readComparisons, .readIsRelatable, .release])
      else if env.moveResult then
        (.ok (some d),
         [.connect, .readNode, .readSelect, .readComparisons, .readIsRelatable,
          .mserveMove, .release])
      else
        (.err "invalidRequest",
         [.connect, .readNode, .readSelect, .readComparisons, .readIsRelatable,
          .mserveMove, .release])
    else
      (.err "notFound", [.connect, .readNode, .readSelect, .release])
  | _, _ => (.err "notFound", [.connect, .readNode, .readSelect, .release])

/-- Embeds `this.remove`: resolve the node; `notFound` on absence or type
mismatch; reject with the Postgres foreign-key code `23503` when the node
has dependents; then read the comparison set, delete it when non-empty,
read the owner row and path, and delete the item through
`mserve.remove`. -/
def remove (env : Env) : Outcome × List Effect :=
  match env.itemData with
  | some d =>
    if env.nodeType = d.type then
      if d.hasDependents then
        (.err "23503", [.connect, .readNode, .release])
      else if env.comparisons ≠ [] then
        (.ok (some d),
         [.connect, .readNode, .readComparisons, .deleteComparisonsFx,
          .readSelect, .readPath, .mserveRemove, .release])
      else
        (.ok (some d),
         [.connect, .readNode, .readComparisons,
          .readSelect, .readPath, .mserveRemove, .release])
    else (.err "notFound", [.connect, .readNode, .release])
  | none => (.err "notFound", [.connect, .readNode, .release])

/-- A capture item whose move passes every check. -/
def okItem : ItemData := ⟨"modern_captures", "unsorted", false, "Capture"⟩

/-- A capture item already locked in the finalized `masterable` state. -/
def masterItem : ItemData := ⟨"modern_captures", "masterable", false, "Capture"⟩

/-- A node that still has dependents. -/
def parentItem : ItemData := ⟨"stations", "sorted", true, "Station"⟩

/-- Environment of a well-formed move: unsorted capture, no comparisons,
relatable owner, `mserve.move` succeeding. -/
def envMoveOk : Env := ⟨"modern_captures", some okItem, some (), [], true, true, 1⟩

/-- Same request, but the capture anchors one comparison. -/
def envComparisons : Env := ⟨"modern_captures", some okItem, some (), [7], true, true, 1⟩

/-- Same request on a `masterable` capture. -/
def envMaster : Env := ⟨"modern_captures", some masterItem, some (), [], true, true, 1⟩

/-- Delete request on a node with dependents. -/
def envDependents : Env := ⟨"stations", some parentItem, some (), [], true, true, 2⟩

/-- Request whose stored node type (`surveys`) differs from the
controller's expected type (`stations`). -/
def envMismatch : Env := ⟨"stations", some ⟨"surveys", "sorted", false, "Survey"⟩, some (), [], true, true, 2⟩

end ModelController

/-! ### Concrete factory states used to exercise aliasing -/

/-- A one-attribute `stations` schema attributes object, as the schema
constructor builds it. -/
def stationsAttrs : AttrMap := initAttrs [⟨"nodes_id", "integer", "Nodes Id"⟩]

/-- Allocate the shared `schema.attributes` object (one per
`create('stations')` call). -/
def c8base : ObjHeap × Nat := ObjHeap.alloc ObjHeap.empty (AttrStore.map stationsAttrs)

/-- First instance: `new Model()`. -/
def c8make1 : ObjHeap × ModelInstance × List String × Option String :=
  newModel c8base.1 "stations" c8base.2 InputData.nullData

/-- Second instance of the same model type. -/
def c8make2 : ObjHeap × ModelInstance × List String × Option String :=
  newModel c8make1.1 "stations" c8base.2 InputData.nullData

/-- Heap after `inst1.addAttribute('fs_path', 'text')`. -/
def c8after : ObjHeap :=
  instAddAttribute c8make2.1 c8make1.2.1 "fs_path" "text" JSValue.null

/-! ## Helper lemmas -/

theorem overwrite_keys (m : AttrMap) (k : String) (f : String × Attr → Attr) :
    (m.map fun kv => if kv.1 = k then (kv.1, f kv) else kv).map Prod.fst
      = m.map Prod.fst := by
  induction m with
  | nil => rfl
  | cons kv rest ih =>
    by_cases h : kv.1 = k <;> simp [h, ih]

theorem updateValue_keys (m : AttrMap) (k : String) (v : JSValue) :
    (updateValue m k v).map Prod.fst = m.map Prod.fst :=
  overwrite_keys m k (fun kv => { kv.2 with value := v })

theorem setDataAssign_keys (fs : List (String × JSValue)) (m : AttrMap) :
    ((setDataAssign m fs).1).map Prod.fst = m.map Prod.fst := by
  induction fs generalizing m with
  | nil => rfl
  | cons kv rest ih =>
    show ((if hasOwnProperty m kv.1 = true then
        match sanitize kv.2 (attrType m kv.1) with
        | .ok v => setDataAssign (updateValue m kv.1 v) rest
        | .error e => (m, some e)
      else setDataAssign m rest).1).map Prod.fst = m.map Prod.fst
    by_cases h : hasOwnProperty m kv.1 = true
    · rw [if_pos h]
      cases hs : sanitize kv.2 (attrType m kv.1) with
      | ok v =>
        show ((setDataAssign (updateValue m kv.1 v) rest).1).map Prod.fst = _
        rw [ih, updateValue_keys]
      | error e => rfl
    · rw [if_neg h]
      exact ih m

theorem filter_nofilter (m : AttrMap) :
    (m.filter fun kv => !(([] : List String).contains kv.1)) = m := by
  induction m with
  | nil => rfl
  | cons kv rest ih => simp [List.filter, ih]

theorem hasOwnProperty_iff (m : AttrMap) (k : String) :
    hasOwnProperty m k = true ↔ k ∈ m.map Prod.fst := by
  unfold hasOwnProperty
  rw [List.any_eq_true]
  constructor
  · rintro ⟨kv, hkv, hbeq⟩
    exact List.mem_map.mpr ⟨kv, hkv, beq_iff_eq.mp hbeq⟩
  · intro h
    obtain ⟨kv, hkv, hke⟩ := List.mem_map.mp h
    exact ⟨kv, hkv, beq_iff_eq.mpr hke⟩

theorem initAttrs_keys (schema : List SchemaAttr) :
    (initAttrs schema).map Prod.fst = schema.map SchemaAttr.name := by
  unfold initAttrs
  rw [List.map_map]
  rfl

/-! ## Claims -/

/-- Claim C3: For every move request on a node that passes the not-found and
comparison checks, if the node's status is not one of
`{unsorted, sorted, missing}` (for example `masterable`), the operation is
rejected with the `invalidMove` error kind and no reparenting occurs (the
trace contains no mutating effect). -/
theorem c3_move_rejects_locked_status (env : ModelController.Env)
    (d : ModelController.ItemData)
    (hi : env.itemData = some d) (ho : env.ownerData = some ())
    (ht : env.nodeType = d.type) (hc : env.comparisons = [])
    (hs : d.status ≠ "unsorted" ∧ d.status ≠ "sorted" ∧ d.status ≠ "missing") :
    (ModelController.move env).1 = ModelController.Outcome.err "invalidMove" ∧
    (ModelController.move env).2.all (fun e => !ModelController.mutates e) = true := by
  cases hrel : env.isRelatable <;>
    constructor <;>
      simp [ModelController.move, hi, ho, ht, hc, hrel, hs.1, hs.2.1, hs.2.2,
        ModelController.mutates]

/-- Witness for C3 at an environment with a `masterable` capture. -/
theorem c3_move_rejects_locked_status_witness :
    (ModelController.envMaster.itemData = some ModelController.masterItem ∧
      ModelController.masterItem.status ≠ "unsorted") ∧
    ((ModelController.move ModelController.envMaster).1 =
        ModelController.Outcome.err "invalidMove" ∧
      (ModelController.move ModelController.envMaster).2.all
        (fun e => !ModelController.mutates e) = true) :=
  ⟨⟨rfl, by decide⟩,
    c3_move_rejects_locked_status ModelController.envMaster ModelController.masterItem
      rfl rfl rfl rfl (by decide)⟩

/-- Claim C4: For every delete request on a node with `hasDependents = true`,
the operation is rejected with the foreign-key-violation kind (code
`23503`) before any comparison associations or node rows are deleted, even
when the node has zero comparisons: the handler stops with only the
connect/read/release effects issued. -/
theorem c4_remove_rejects_dependents (env : ModelController.Env)
    (d : ModelController.ItemData)
    (hi : env.itemData = some d) (ht : env.nodeType = d.type)
    (hd : d.hasDependents = true) :
    ModelController.remove env =
      (ModelController.Outcome.err "23503",
       [ModelController.Effect.connect, ModelController.Effect.readNode,
        ModelController.Effect.release]) := by
  simp [ModelController.remove, hi, ht, hd]

/-- Witness for C4 at a node with dependents and zero comparisons. -/
theorem c4_remove_rejects_dependents_witness :
    (ModelController.envDependents.itemData = some ModelController.parentItem ∧
      ModelController.parentItem.hasDependents = true ∧
      ModelController.envDependents.comparisons = []) ∧
    ModelController.remove ModelController.envDependents =
      (ModelController.Outcome.err "23503",
       [ModelController.Effect.connect, ModelController.Effect.readNode,
        ModelController.Effect.release]) :=
  ⟨⟨rfl, rfl, rfl⟩,
    c4_remove_rejects_dependents ModelController.envDependents
      ModelController.parentItem rfl rfl rfl⟩

/-- Claim C5: For every resolution of a node by id with an expected entity
type (in show, edit, move and remove), if the stored node's type differs
from the expected type the operation reports the `notFound` error kind and
never returns or operates on the mismatched record: each handler stops
after its initial reads, issuing no mutation and echoing no data. -/
theorem c5_type_mismatch_notFound (env : ModelController.Env)
    (d : ModelController.ItemData)
    (hi : env.itemData = some d) (ht : env.nodeType ≠ d.type) :
    ModelController.showRec env =
      (ModelController.Outcome.err "notFound",
       [ModelController.Effect.connect, ModelController.Effect.readNode,
        ModelController.Effect.release]) ∧
    ModelController.editRec env =
      (ModelController.Outcome.err "notFound",
       [ModelController.Effect.connect, ModelController.Effect.readNode,
        ModelController.Effect.release]) ∧
    ModelController.move env =
      (ModelController.Outcome.err "notFound",
       [ModelController.Effect.connect, ModelController.Effect.readNode,
        ModelController.Effect.readSelect, ModelController.Effect.release]) ∧
    ModelController.remove env =
      (ModelController.Outcome.err "notFound",
       [ModelController.Effect.connect, ModelController.Effect.readNode,
        ModelController.Effect.release]) := by
  refine ⟨?_, ?_, ?_, ?_⟩
  · simp [ModelController.showRec, hi, ht]
  · simp [ModelController.editRec, hi, ht]
  · cases ho : env.ownerData <;> simp [ModelController.move, hi, ho, ht]
  · simp [ModelController.remove, hi, ht]

/-- Witness for C5: a `stations` request resolving a stored `surveys`
node. -/
theorem c5_type_mismatch_notFound_witness :
    (ModelController.envMismatch.itemData =
        some ⟨"surveys", "sorted", false, "Survey"⟩ ∧
      ModelController.envMismatch.nodeType ≠ "surveys") ∧
    ModelController.showRec ModelController.envMismatch =
      (ModelController.Outcome.err "notFound",
       [ModelController.Effect.connect, ModelController.Effect.readNode,
        ModelController.Effect.release]) :=
  ⟨⟨rfl, by decide⟩,
    (c5_type_mismatch_notFound ModelController.envMismatch
      ⟨"surveys", "sorted", false, "Survey"⟩ rfl (by decide)).1⟩

/-- Counterexample to C1: The claim says a delete request on a capture
with a non-empty comparison set is rejected with
`restrictedByComparisons` before any mutating statement.  On a node with
one comparison and no dependents, `remove` instead succeeds, deleting the
comparisons and then the node. -/
theorem c1_counterexample :
    (ModelController.remove
        ⟨"modern_captures", some ModelController.okItem, some (), [7], true, true, 1⟩).1 ≠
      ModelController.Outcome.err "restrictedByComparisons" ∧
    ModelController.Effect.deleteComparisonsFx ∈
      (ModelController.remove
        ⟨"modern_captures", some ModelController.okItem, some (), [7], true, true, 1⟩).2 ∧
    ModelController.Effect.mserveRemove ∈
      (ModelController.remove
        ⟨"modern_captures", some ModelController.okItem, some (), [7], true, true, 1⟩).2 := by
  decide

/-- Amended C1: A *move* request on a capture whose comparison set is
non-empty is rejected with `restrictedByComparisons` before any mutating
statement, regardless of the `isRelatable` result; a *delete* request on
such a capture (passing the not-found and dependents checks) is not
rejected: the comparison associations are deleted first and then the node
is removed. -/
theorem c1_amended_comparisons_block_move_not_remove (env : ModelController.Env)
    (d : ModelController.ItemData)
    (hi : env.itemData = some d) (ho : env.ownerData = some ())
    (ht : env.nodeType = d.type) (hc : env.comparisons ≠ [])
    (hd : d.hasDependents = false) :
    ((ModelController.move env).1 =
        ModelController.Outcome.err "restrictedByComparisons" ∧
      (ModelController.move env).2.all
        (fun e => !ModelController.mutates e) = true) ∧
    ModelController.remove env =
      (ModelController.Outcome.ok (some d),
       [ModelController.Effect.connect, ModelController.Effect.readNode,
        ModelController.Effect.readComparisons,
        ModelController.Effect.deleteComparisonsFx,
        ModelController.Effect.readSelect, ModelController.Effect.readPath,
        ModelController.Effect.mserveRemove, ModelController.Effect.release]) := by
  refine ⟨⟨?_, ?_⟩, ?_⟩
  · simp [ModelController.move, hi, ho, ht, hc]
  · simp [ModelController.move, hi, ho, ht, hc, ModelController.mutates]
  · simp [ModelController.remove, hi, ht, hc, hd]

/-- Witness for the amended C1 at a capture with one comparison, a
relatable owner, and no dependents. -/
theorem c1_amended_witness :
    (ModelController.envComparisons.itemData = some ModelController.okItem ∧
      ModelController.envComparisons.comparisons ≠ [] ∧
      ModelController.envComparisons.isRelatable = true ∧
      ModelController.okItem.hasDependents = false) ∧
    ((ModelController.move ModelController.envComparisons).1 =
        ModelController.Outcome.err "restrictedByComparisons" ∧
      (ModelController.move ModelController.envComparisons).2.all
        (fun e => !ModelController.mutates e) = true) :=
  ⟨⟨rfl, by decide, rfl, rfl⟩,
    (c1_amended_comparisons_block_move_not_remove ModelController.envComparisons
      ModelController.okItem rfl rfl rfl (by decide) rfl).1⟩

/-- Counterexample to C2: The claim says every move executes its
validation reads and mutations inside one database transaction.  A
successful move issues its mutation (`mserve.move`) with no `BEGIN`,
`COMMIT` or `ROLLBACK` anywhere in its trace: the handler never opens a
transaction. -/
theorem c2_counterexample :
    ModelController.Effect.mserveMove ∈
      (ModelController.move ModelController.envMoveOk).2 ∧
    (ModelController.move ModelController.envMoveOk).2.all
      (fun e => !ModelController.txEffect e) = true ∧
    (ModelController.move ModelController.envMoveOk).1 =
      ModelController.Outcome.ok (some ModelController.okItem) := by
  decide

/-- Amended C2: Move and delete acquire a pooled connection for the
duration of the operation and release it on every exit path (the last
effect of every trace is the `finally` release), but they issue no
transaction-control statement at all: no `BEGIN`, `COMMIT` or `ROLLBACK`
appears in any move or delete trace (only the create handler wraps its
work in a transaction). -/
theorem c2_amended_move_remove_no_transaction (env : ModelController.Env) :
    (ModelController.move env).2.all (fun e => !ModelController.txEffect e) = true ∧
    (ModelController.remove env).2.all (fun e => !ModelController.txEffect e) = true ∧
    (ModelController.move env).2.getLast? = some ModelController.Effect.release ∧
    (ModelController.remove env).2.getLast? = some ModelController.Effect.release := by
  refine ⟨?_, ?_, ?_, ?_⟩
  all_goals
    simp only [ModelController.move, ModelController.remove]
    repeat' split
    all_goals rfl

/-- Counterexample to C6: the claim asserts that for every input record the
chain `setData(x); getData()` completes with exactly the schema's keys.  On
a record assigning JS `undefined` to a text-typed schema key, `setData`
throws a TypeError inside its assignment pass (`data.toString()` on
`undefined` — the strict-equality guard catches only `null` and `''`), so
`getData()` afterwards never runs. -/
theorem c6_counterexample :
    (setData (initAttrs [⟨"caption", "text", "Caption"⟩])
      (InputData.flat [("caption", JSValue.undef)])).thrown =
      some undefToStringError := by
  decide

/-- Amended C6: for every entity type and every input record passed to
`setData`, keys absent from the type's schema are dropped with a non-fatal
warning (emitted in the first pass, before any assignment) and never
stored; the attribute key set after `setData` equals the schema's even when
the assignment pass throws partway (it throws a TypeError when a text-typed
schema key is assigned JS `undefined`), so whenever `getData()` runs
afterwards it returns exactly the schema's attribute keys, no more, no
fewer. -/
theorem c6_amended_setData_warns_and_preserves_keys (schema : List SchemaAttr)
    (fields : List (String × JSValue)) :
    (∀ k v, (k, v) ∈ fields → (∀ a ∈ schema, a.name ≠ k) →
      k ∈ (setData (initAttrs schema) (InputData.flat fields)).warnings) ∧
    ((setData (initAttrs schema) (InputData.flat fields)).attrs).map Prod.fst
      = schema.map SchemaAttr.name ∧
    (∃ out,
      getData
        (AttrStore.map (setData (initAttrs schema) (InputData.flat fields)).attrs) []
        = Except.ok out ∧
      out.map Prod.fst = schema.map SchemaAttr.name) := by
  have hkeys : ((setData (initAttrs schema) (InputData.flat fields)).attrs).map Prod.fst
      = schema.map SchemaAttr.name := by
    show ((setDataAssign (initAttrs schema) fields).1).map Prod.fst
      = schema.map SchemaAttr.name
    rw [setDataAssign_keys, initAttrs_keys]
  refine ⟨?_, hkeys, ?_⟩
  · intro k v hkv hk
    have hown : hasOwnProperty (initAttrs schema) k = false := by
      cases howncase : hasOwnProperty (initAttrs schema) k with
      | false => rfl
      | true =>
        exfalso
        have hmem := (hasOwnProperty_iff _ _).mp howncase
        rw [initAttrs_keys] at hmem
        obtain ⟨a, ha, hname⟩ := List.mem_map.mp hmem
        exact hk a ha hname
    show k ∈ (fields.filter
        (fun kv => !(hasOwnProperty (initAttrs schema) kv.1))).map Prod.fst
    refine List.mem_map.mpr ⟨(k, v), List.mem_filter.mpr ⟨hkv, ?_⟩, rfl⟩
    show (!(hasOwnProperty (initAttrs schema) k)) = true
    rw [hown]
    rfl
  · refine ⟨_, rfl, ?_⟩
    show (((setData (initAttrs schema) (InputData.flat fields)).attrs.filter
        (fun kv => !(([] : List String).contains kv.1))).map
        (fun kv => (kv.1, kv.2.value))).map Prod.fst = schema.map SchemaAttr.name
    rw [filter_nofilter, List.map_map]
    show ((setData (initAttrs schema) (InputData.flat fields)).attrs).map Prod.fst
      = schema.map SchemaAttr.name
    exact hkeys

/-- Witness for the amended C6: a record with one schema key and one bogus
key against a one-attribute schema. -/
theorem c6_amended_setData_warns_and_preserves_keys_witness :
    (("bogus", JSValue.str "x") ∈ [("id", JSValue.str "7"), ("bogus", JSValue.str "x")] ∧
      (∀ a ∈ [(⟨"id", "integer", "Id"⟩ : SchemaAttr)], a.name ≠ "bogus")) ∧
    "bogus" ∈ (setData (initAttrs [⟨"id", "integer", "Id"⟩])
      (InputData.flat [("id", JSValue.str "7"), ("bogus", JSValue.str "x")])).warnings :=
  ⟨⟨by decide, by decide⟩,
    (c6_amended_setData_warns_and_preserves_keys [⟨"id", "integer", "Id"⟩]
        [("id", JSValue.str "7"), ("bogus", JSValue.str "x")]).1
      "bogus" (JSValue.str "x") (by decide) (by decide)⟩

/-- Counterexample to C7: The claim says sanitization maps the empty
string to null for text-typed attributes, so `getData` after
`setData({caption: ""})` would yield null.  In the code the `text`
sanitizer maps `""` (and null) to `""`, and the stored value is the empty
string, not null. -/
theorem c7_counterexample :
    (setData (initAttrs [⟨"caption", "text", "Caption"⟩])
      (InputData.flat [("caption", JSValue.str "")])).thrown = none ∧
    getValue ((setData (initAttrs [⟨"caption", "text", "Caption"⟩])
        (InputData.flat [("caption", JSValue.str "")])).attrs)
      (JSValue.str "caption") = JSValue.str "" ∧
    getValue ((setData (initAttrs [⟨"caption", "text", "Caption"⟩])
        (InputData.flat [("caption", JSValue.str "")])).attrs)
      (JSValue.str "caption") ≠ JSValue.null := by
  decide

/-- Amended C7: For text-typed attributes (`text` or
`varying character`), sanitization maps the empty string — and null — to
the *empty string* (HTML tags are stripped from non-empty input); the
empty-string-to-null normalization applies only to semantic types handled
by the default sanitizer (those without a dedicated rule). -/
theorem c7_amended_empty_string_sanitization (t u : String)
    (ht : t = "text" ∨ t = "varying character")
    (hu : u ≠ "boolean" ∧ u ≠ "varying character" ∧ u ≠ "integer" ∧
      u ≠ "double precision" ∧ u ≠ "float" ∧ u ≠ "json" ∧
      u ≠ "USER-DEFINED" ∧ u ≠ "text") :
    sanitize (JSValue.str "") t = Except.ok (JSValue.str "") ∧
    sanitize JSValue.null t = Except.ok (JSValue.str "") ∧
    sanitize (JSValue.str "") u = Except.ok JSValue.null := by
  obtain ⟨h1, h2, h3, h4, h5, h6, h7, h8⟩ := hu
  refine ⟨?_, ?_, ?_⟩
  · rcases ht with rfl | rfl <;> rfl
  · rcases ht with rfl | rfl <;> rfl
  · simp [sanitize, h1, h2, h3, h4, h5, h6, h7, h8]

/-- Witness for the amended C7 at `text` and at `serial` (a type with no
dedicated sanitizer). -/
theorem c7_amended_empty_string_sanitization_witness :
    (("text" = "text" ∨ ("text" : String) = "varying character") ∧
      ("serial" : String) ≠ "text") ∧
    (sanitize (JSValue.str "") "text" = Except.ok (JSValue.str "") ∧
      sanitize JSValue.null "text" = Except.ok (JSValue.str "") ∧
      sanitize (JSValue.str "") "serial" = Except.ok JSValue.null) :=
  ⟨⟨Or.inl rfl, by decide⟩,
    c7_amended_empty_string_sanitization "text" "serial" (Or.inl rfl)
      ⟨by decide, by decide, by decide, by decide,
       by decide, by decide, by decide, by decide⟩⟩

/-- Counterexample to C8: The claim says `addAttribute` extends only the
calling instance's local attribute set.  Two instances of the same model
type share one attributes object with the constructor's schema
(`this.attributes = schema.attributes`), so after
`inst1.addAttribute('fs_path', 'text')` the *second* instance's `getData`
contains `fs_path` and the shared schema attributes object has changed. -/
theorem c8_counterexample :
    instGetData c8after c8make2.2.1 [] =
      Except.ok [("nodes_id", JSValue.null), ("fs_path", JSValue.null)] ∧
    c8after.get c8base.2 ≠ AttrStore.map stationsAttrs := by
  constructor
  · rfl
  · decide

/-- Amended C8: `addAttribute(name, type, value)` writes the new
attribute into the attributes object the instance references — the object
shared by reference with the constructor's schema and with every other
instance of the same entity type — so after the call any aliasing
instance's attributes object contains the new attribute. -/
theorem c8_amended_addAttribute_mutates_shared (h0 : ObjHeap)
    (inst1 inst2 : ModelInstance) (m : AttrMap) (name ty : String) (v : JSValue)
    (href : inst2.attrsRef = inst1.attrsRef)
    (hm : h0.get inst1.attrsRef = AttrStore.map m) :
    (instAddAttribute h0 inst1 name ty v).get inst2.attrsRef =
      AttrStore.map (addAttributeMap m name ty v) ∧
    name ∈ (addAttributeMap m name ty v).map Prod.fst := by
  constructor
  · rw [href]
    unfold instAddAttribute
    rw [hm]
    simp [ObjHeap.get, ObjHeap.set]
  · unfold addAttributeMap
    by_cases hb : hasOwnProperty m name = true
    · rw [if_pos hb, overwrite_keys]
      exact (hasOwnProperty_iff m name).mp hb
    · rw [if_neg hb]
      simp

/-- Witness for the amended C8: two aliasing references to the `stations`
schema attributes object. -/
theorem c8_amended_addAttribute_mutates_shared_witness :
    ((⟨"stations", 0⟩ : ModelInstance).attrsRef =
        (⟨"stations", 0⟩ : ModelInstance).attrsRef ∧
      c8base.1.get (⟨"stations", 0⟩ : ModelInstance).attrsRef =
        AttrStore.map stationsAttrs) ∧
    ((instAddAttribute c8base.1 ⟨"stations", 0⟩ "fs_path" "text" JSValue.null).get
        (⟨"stations", 0⟩ : ModelInstance).attrsRef =
      AttrStore.map (addAttributeMap stationsAttrs "fs_path" "text" JSValue.null) ∧
      "fs_path" ∈ (addAttributeMap stationsAttrs "fs_path" "text" JSValue.null).map
        Prod.fst) :=
  ⟨⟨rfl, by decide⟩,
    c8_amended_addAttribute_mutates_shared c8base.1 ⟨"stations", 0⟩ ⟨"stations", 0⟩
      stationsAttrs "fs_path" "text" JSValue.null rfl (by decide)⟩

/-- Claim C9: For every attribute name not present in the instance's schema,
`getValue(name)` returns null and `setValue(name, value)` leaves the
instance unchanged and returns normally (`Except.ok`): neither call
throws, because the `hasOwnProperty` guard short-circuits before any
sanitizer can run. -/
theorem c9_unknown_attribute_accessors (attrs : AttrMap) (name : String)
    (v : JSValue) (h : hasOwnProperty attrs name = false) :
    getValue attrs (JSValue.str name) = JSValue.null ∧
    setValue attrs (JSValue.str name) v = Except.ok attrs := by
  constructor
  · simp [getValue, jsToString, atomToString, JSValue.str, h]
  · simp [setValue, JSValue.str, h]

/-- Witness for C9 at an unknown name against a one-attribute schema. -/
theorem c9_unknown_attribute_accessors_witness :
    hasOwnProperty (initAttrs [⟨"id", "integer", "Id"⟩]) "ghost" = false ∧
    (getValue (initAttrs [⟨"id", "integer", "Id"⟩]) (JSValue.str "ghost") =
        JSValue.null ∧
      setValue (initAttrs [⟨"id", "integer", "Id"⟩]) (JSValue.str "ghost")
        (JSValue.num 1) = Except.ok (initAttrs [⟨"id", "integer", "Id"⟩])) :=
  ⟨by decide,
    c9_unknown_attribute_accessors (initAttrs [⟨"id", "integer", "Id"⟩]) "ghost"
      (JSValue.num 1) (by decide)⟩

/-- Claim C10: After calling `clear()` on an entity instance with a non-empty
schema, the attribute map is replaced by an array of `undefined` entries,
and a subsequent `getData()` call raises a TypeError instead of returning
the schema's keys with null values. -/
theorem c10_clear_breaks_getData (m : AttrMap) (hm : m ≠ []) :
    clearStore (AttrStore.map m) = Except.ok (AttrStore.cleared m.length) ∧
    getData (AttrStore.cleared m.length) [] =
      Except.error "TypeError: cannot read properties of undefined" := by
  constructor
  · show Except.ok (AttrStore.cleared (clearValues m).length) = _
    rw [show (clearValues m).length = m.length from List.length_map m _]
  · cases m with
    | nil => exact absurd rfl hm
    | cons kv rest =>
      have hmem : toString (0 : Nat) ∈
          (((List.range ((kv :: rest : AttrMap)).length).map (fun i => toString i)).filter
            (fun k => !(([] : List String).contains k))) :=
        List.mem_filter.mpr
          ⟨List.mem_map.mpr ⟨0, List.mem_range.mpr (Nat.succ_pos _), rfl⟩, rfl⟩
      have hne := List.ne_nil_of_mem hmem
      show (if (((List.range ((kv :: rest : AttrMap)).length).map
            (fun i => toString i)).filter
            (fun k => !(([] : List String).contains k))).isEmpty = true
          then (Except.ok [] : Except String (List (String × JSValue)))
          else Except.error "TypeError: cannot read properties of undefined") =
        Except.error "TypeError: cannot read properties of undefined"
      rw [if_neg (fun hempty => hne (List.isEmpty_iff.mp hempty))]

/-- Witness for C10 at a one-attribute instance. -/
theorem c10_clear_breaks_getData_witness :
    ([("id", (⟨JSValue.num 3, "Id", "integer"⟩ : Attr))] : AttrMap) ≠ [] ∧
    (clearStore (AttrStore.map [("id", ⟨JSValue.num 3, "Id", "integer"⟩)]) =
        Except.ok (AttrStore.cleared 1) ∧
      getData (AttrStore.cleared 1) [] =
        Except.error "TypeError: cannot read properties of undefined") :=
  ⟨by decide,
    c10_clear_breaks_getData [("id", ⟨JSValue.num 3, "Id", "integer"⟩)] (by decide)⟩
